import Mathlib

/-!
Shallow embedding of `dynamicscoping/dynamicscoping.py`: a dynamically scoped
variable (`DynamicVar`) with a per-thread value store, lazy inheritance from a
root thread, and a context-manager binding protocol.  Threads are modelled by
their identity (`Nat`); the mutable object is modelled as an explicit state
`DVState` threaded through the operations.  Operations that can raise in
Python return `Option`/`Except` results.
-/

namespace DynScoping

/-- A Python object stored in a dynamic variable.  `unbound` models the class
`UninitializedBinding` itself, which the source uses as its "unbound" sentinel
(the identity test `self._value is UninitializedBinding` in `is_bound`); being
an ordinary first-class, importable Python object, it can also be supplied by
a caller as a value.  `obj a` models every other object. -/
inductive Val (α : Type) where
  | unbound : Val α
  | obj : α → Val α
deriving DecidableEq

variable {α : Type}

/-- The identity test `value is UninitializedBinding`. -/
def Val.isUnbound : Val α → Bool
  | .unbound => true
  | .obj _ => false

/-- Pointwise update of a thread-indexed slot map (assignment to one slot). -/
def upd (f : Nat → Option (Val α)) (t : Nat) (v : Option (Val α)) :
    Nat → Option (Val α) :=
  fun x => if x = t then v else f x

/-- The state of one `DynamicVar`: the identity of `_root_thread`, the
`_root_value` attribute (`none` while the attribute has never been assigned),
and the per-thread `_local._value` slots (`none` for a thread whose
thread-local slot does not exist). -/
structure DVState (α : Type) where
  root : Nat
  rootVal : Option (Val α)
  locals : Nat → Option (Val α)

/-- `DynamicVar._set(value)` executed by thread `t`: store `value` in the
calling thread's local slot and, when `t` is the root thread, also assign
`_root_value`. -/
def DVState.set (s : DVState α) (t : Nat) (v : Val α) : DVState α :=
  { s with
    locals := upd s.locals t (some v)
    rootVal := if t = s.root then some v else s.rootVal }

/-- `dynamically_bound(initial)` (i.e. `DynamicVar.__init__`) executed on
thread `t0`, which becomes the root thread: both attributes start absent and
`_set(initial)` then runs on `t0`.  A bare `dynamically_bound()` passes the
sentinel, i.e. `initial = Val.unbound`. -/
def dynamicallyBound (t0 : Nat) (initial : Val α) : DVState α :=
  DVState.set ⟨t0, none, fun _ => none⟩ t0 initial

/-- The `DynamicVar._value` property read by thread `t`: if the calling
thread's local slot exists, return its content and leave the state unchanged;
otherwise copy the current `_root_value` into a newly created local slot for
`t` and return it.  Returns `none` when `_root_value` is absent, which in
Python would be an `AttributeError` (unreachable for constructed variables,
see the root-coherence invariant below). -/
def DVState.getValue (s : DVState α) (t : Nat) : Option (Val α × DVState α) :=
  match s.locals t with
  | some v => some (v, s)
  | none =>
    match s.rootVal with
    | some rv => some (rv, { s with locals := upd s.locals t (some rv) })
    | none => none

/-- The calling thread's effective value: what `_value` resolves to. -/
def DVState.effVal (s : DVState α) (t : Nat) : Option (Val α) :=
  (s.getValue t).map Prod.fst

/-- `DynamicVar.is_bound()` on thread `t`: resolve via `_value` and report
whether the result is the sentinel. -/
def DVState.isBound (s : DVState α) (t : Nat) : Option (Bool × DVState α) :=
  (s.getValue t).map fun p => (!p.1.isUnbound, p.2)

/-- The `DynamicVar.value` property on thread `t`: `is_bound()` followed by
`_value` when bound, otherwise `raise UninitializedBinding(...)`, modelled as
`Except.error ()`. -/
def DVState.value (s : DVState α) (t : Nat) :
    Option (Except Unit (Val α) × DVState α) :=
  match s.isBound t with
  | none => none
  | some (true, s1) => (s1.getValue t).map fun p => (Except.ok p.1, p.2)
  | some (false, s1) => some (Except.error (), s1)

/-- `with var.binding(value): body` run by thread `t`.  The body maps the
state at scope entry to a new state together with `true` when it completes
normally and `false` when it raises.  Faithful to the source: the generator's
`yield` is not wrapped in `try/finally`, so when the body raises, the
exception is thrown into the generator at the `yield`, the line
`self._set(old_value)` is never reached, and the restore is skipped. -/
def bindingRun (t : Nat) (v : Val α) (body : DVState α → DVState α × Bool)
    (s : DVState α) : Option (DVState α × Bool) :=
  match s.getValue t with
  | none => none
  | some (old, s1) =>
    let r := body (s1.set t v)
    if r.2 then some (r.1.set t old, true) else some (r.1, false)

/-- Depth-`N` nesting of `binding` scopes on a single thread, every scope
exiting normally with an empty body:
`with binding(v1): with binding(v2): ... pass`. -/
def nestScopes (t : Nat) : List (Val α) → DVState α → Option (DVState α)
  | [], s => some s
  | v :: rest, s =>
    match s.getValue t with
    | none => none
    | some (old, s1) => (nestScopes t rest (s1.set t v)).map fun s3 => s3.set t old

/-- The attribute `self._name` as computed by `name or id(self)`: an absent
name — or a falsy one, such as the empty string — falls back to the
variable's identity. -/
def mkName (name : Option String) (identity : Nat) : Sum String Nat :=
  match name with
  | none => Sum.inr identity
  | some s => if s = "" then Sum.inr identity else Sum.inl s

/-- The body of `DynamicVar.__repr__`: the test `self._name == id(self)`
selects the unnamed form (a string name never compares equal to the integer
identity in Python). -/
def reprForm (className : String) (nm : Sum String Nat) (identity : Nat)
    (valStr : String) : String :=
  match nm with
  | Sum.inr _ =>
    "<" ++ className ++ " (" ++ toString identity ++ ") = " ++ valStr ++ ">"
  | Sum.inl s =>
    "<" ++ className ++ " \"" ++ s ++ "\" (" ++ toString identity ++ ") = "
      ++ valStr ++ ">"

/-- `DynamicVar.__repr__` executed by thread `t`: formats `self._value`, the
calling thread's effective value, rendered by the display function `f`. -/
def reprOf (f : Val α → String) (name : Option String) (identity : Nat)
    (t : Nat) (s : DVState α) : Option String :=
  (s.getValue t).map fun p =>
    reprForm "DynamicVar" (mkName name identity) identity (f p.1)

/-- A concrete display function for `Val Nat`, standing in for Python's
string conversion of the stored object. -/
def showNat : Val Nat → String
  | .unbound => "UninitializedBinding"
  | .obj n => toString n

/-- States reachable from construction by the variable's own operations:
`_set` by any thread and the slot-creating resolution of `_value` (which the
`binding` protocol, `value`, `is_bound` and `__repr__` are composed of). -/
inductive Reachable : DVState α → Prop where
  | init (t0 : Nat) (initial : Val α) : Reachable (dynamicallyBound t0 initial)
  | step_set (t : Nat) (v : Val α) (s : DVState α) :
      Reachable s → Reachable (s.set t v)
  | step_get (t : Nat) (s : DVState α) (v : Val α) (s' : DVState α) :
      Reachable s → s.getValue t = some (v, s') → Reachable s'

/-! ### Basic lemmas about the operations -/

theorem upd_same (f : Nat → Option (Val α)) (t : Nat) (v : Option (Val α)) :
    upd f t v t = v := by
  simp [upd]

theorem upd_ne (f : Nat → Option (Val α)) (t x : Nat) (v : Option (Val α))
    (h : x ≠ t) : upd f t v x = f x := by
  simp [upd, h]

theorem set_locals_self (s : DVState α) (t : Nat) (v : Val α) :
    (s.set t v).locals t = some v := by
  simp [DVState.set, upd_same]

theorem set_locals_ne (s : DVState α) (t x : Nat) (v : Val α) (h : x ≠ t) :
    (s.set t v).locals x = s.locals x := by
  simp [DVState.set, upd_ne _ _ _ _ h]

theorem set_root (s : DVState α) (t : Nat) (v : Val α) :
    (s.set t v).root = s.root := rfl

theorem getValue_of_slot (s : DVState α) (t : Nat) (v : Val α)
    (h : s.locals t = some v) : s.getValue t = some (v, s) := by
  simp [DVState.getValue, h]

theorem getValue_locals (s : DVState α) (t : Nat) (v : Val α) (s' : DVState α)
    (h : s.getValue t = some (v, s')) :
    s'.locals t = some v ∧ s'.root = s.root ∧ s'.rootVal = s.rootVal := by
  unfold DVState.getValue at h
  cases hl : s.locals t with
  | some w =>
    rw [hl] at h
    cases h
    exact ⟨hl, rfl, rfl⟩
  | none =>
    rw [hl] at h
    cases hr : s.rootVal with
    | some rv =>
      rw [hr] at h
      cases h
      exact ⟨upd_same _ _ _, rfl, rfl⟩
    | none => rw [hr] at h; cases h

theorem getValue_isSome (s : DVState α) (t : Nat)
    (h : s.rootVal.isSome = true) : (s.getValue t).isSome = true := by
  unfold DVState.getValue
  cases hl : s.locals t with
  | some w => rfl
  | none =>
    cases hr : s.rootVal with
    | some rv => rfl
    | none => rw [hr] at h; cases h

theorem value_of_slot (s : DVState α) (t : Nat) (a : α)
    (h : s.locals t = some (Val.obj a)) :
    s.value t = some (Except.ok (Val.obj a), s) := by
  simp [DVState.value, DVState.isBound, getValue_of_slot s t _ h, Val.isUnbound]

theorem value_unbound_of_slot (s : DVState α) (t : Nat)
    (h : s.locals t = some Val.unbound) :
    s.value t = some (Except.error (), s) := by
  simp [DVState.value, DVState.isBound, getValue_of_slot s t _ h, Val.isUnbound]

theorem nestScopes_effVal (t : Nat) (vs : List (Val α)) (s : DVState α)
    (h : (s.getValue t).isSome = true) :
    (nestScopes t vs s).map (fun s3 => s3.effVal t) = some (s.effVal t) := by
  induction vs generalizing s with
  | nil => simp [nestScopes]
  | cons v rest ih =>
    obtain ⟨⟨old, s1⟩, hg⟩ := Option.isSome_iff_exists.mp h
    have h2 : ((s1.set t v).getValue t).isSome = true := by
      rw [getValue_of_slot _ _ _ (set_locals_self s1 t v)]; rfl
    have hih := ih (s1.set t v) h2
    obtain ⟨s3, h3⟩ : ∃ s3, nestScopes t rest (s1.set t v) = some s3 := by
      cases hns : nestScopes t rest (s1.set t v) with
      | none => rw [hns] at hih; cases hih
      | some s3 => exact ⟨s3, rfl⟩
    simp only [nestScopes, hg, h3, Option.map_map, Option.map_some]
    simp [DVState.effVal, getValue_of_slot _ _ _ (set_locals_self s3 t old), hg]

theorem getValue_fresh (t0 t : Nat) (i : Val α) :
    ∃ s1, (dynamicallyBound t0 i).getValue t = some (i, s1) := by
  by_cases h : t = t0
  · subst h
    exact ⟨_, getValue_of_slot _ _ _ (set_locals_self _ _ _)⟩
  · have hl : (dynamicallyBound t0 i).locals t = none := by
      simp [dynamicallyBound, DVState.set, upd, h]
    have hr : (dynamicallyBound t0 i).rootVal = some i := by
      simp [dynamicallyBound, DVState.set]
    refine ⟨{ dynamicallyBound t0 i with
        locals := upd (dynamicallyBound t0 i).locals t (some i) }, ?_⟩
    simp [DVState.getValue, hl, hr]

/-! ### Claim theorems -/

/-- C1: the spec demands that the restore step run on every exit path of a
`binding` scope, in particular when the body raises.  The source's generator
does not wrap its `yield` in `try/finally`, so a body that raises skips
`self._set(old_value)`: starting from a fresh unbound variable, after
`binding(0)` whose body raises, the thread's effective value is still `0`
instead of the restored `UNBOUND`.  This theorem evaluates the code at that
failing input. -/
theorem c1_exception_skips_restore :
    (dynamicallyBound 0 (Val.unbound : Val Nat)).effVal 0 = some Val.unbound ∧
    ((bindingRun 0 (Val.obj (0 : Nat)) (fun s => (s, false))
        (dynamicallyBound 0 Val.unbound)).map fun p => (p.1.effVal 0, p.2))
      = some (some (Val.obj 0), false) := by
  decide

/-- C4: a variable created with no initial value and not yet bound on the
calling thread raises `UninitializedBinding` when `value` is read, and
`is_bound()` returns `false` — on the creating (root) thread and on every
other thread. -/
theorem c4_unbound_access (t0 t : Nat) :
    (((dynamicallyBound t0 (Val.unbound : Val α)).value t).map Prod.fst
      = some (Except.error ())) ∧
    (((dynamicallyBound t0 (Val.unbound : Val α)).isBound t).map Prod.fst
      = some false) := by
  by_cases h : t = t0
  · subst h
    have hl : (dynamicallyBound t (Val.unbound : Val α)).locals t
        = some Val.unbound := set_locals_self _ _ _
    simp [DVState.value, DVState.isBound, getValue_of_slot _ _ _ hl,
      Val.isUnbound]
  · have hl : (dynamicallyBound t0 (Val.unbound : Val α)).locals t = none := by
      simp [dynamicallyBound, DVState.set, upd, h]
    have hr : (dynamicallyBound t0 (Val.unbound : Val α)).rootVal
        = some Val.unbound := by
      simp [dynamicallyBound, DVState.set]
    simp [DVState.value, DVState.isBound, DVState.getValue, hl, hr,
      Val.isUnbound]

/-- C6: `_set(v)` executed by thread `t` stores `v` in `t`'s local slot,
leaves every other thread's slot unchanged, also assigns `_root_value` when
`t` is the root thread, and leaves `_root_value` untouched otherwise. -/
theorem c6_write_local (s : DVState α) (t : Nat) (v : Val α) :
    ((s.set t v).locals t = some v) ∧
    (∀ x, x ≠ t → (s.set t v).locals x = s.locals x) ∧
    (t = s.root → (s.set t v).rootVal = some v) ∧
    (t ≠ s.root → (s.set t v).rootVal = s.rootVal) := by
  refine ⟨set_locals_self s t v, fun x hx => set_locals_ne s t x v hx, ?_, ?_⟩
  · intro h; simp [DVState.set, h]
  · intro h; simp [DVState.set, h]

/-- Witness for C6 at a concrete variable: a root-thread write updates
`_root_value`, a non-root write leaves both `_root_value` and the root
thread's slot unchanged. -/
theorem c6_write_local_witness :
    ((dynamicallyBound 0 (Val.unbound : Val Nat)).set 0 (Val.obj 4)).rootVal
      = some (Val.obj 4) ∧
    ((dynamicallyBound 0 (Val.unbound : Val Nat)).set 1 (Val.obj 4)).rootVal
      = (dynamicallyBound 0 (Val.unbound : Val Nat)).rootVal ∧
    ((dynamicallyBound 0 (Val.unbound : Val Nat)).set 1 (Val.obj 4)).locals 0
      = (dynamicallyBound 0 (Val.unbound : Val Nat)).locals 0 :=
  ⟨(c6_write_local _ 0 _).2.2.1 rfl,
   (c6_write_local _ 1 _).2.2.2 (by decide),
   (c6_write_local _ 1 _).2.1 0 (by decide)⟩

/-- C2: on one thread, binding `a` makes `value` return `a`; a bind of `b`
nested inside captures `a` as the enclosing value and returns `b` until its
scope exits, after which `value` returns `a` again; and a nest of `N` scopes
(any list of bound values) exited normally in LIFO order leaves the thread's
effective state exactly as it was before the chain — bound to the prior
value, or unbound if there was none. -/
theorem c2_bind_restore_law (t : Nat) (a b : α) (vs : List (Val α))
    (s : DVState α) (h : (s.getValue t).isSome = true) :
    (∀ old s1, s.getValue t = some (old, s1) →
      (s1.set t (Val.obj a)).value t
        = some (Except.ok (Val.obj a), s1.set t (Val.obj a)) ∧
      ∀ old2 s2, (s1.set t (Val.obj a)).getValue t = some (old2, s2) →
        old2 = Val.obj a ∧
        (s2.set t (Val.obj b)).value t
          = some (Except.ok (Val.obj b), s2.set t (Val.obj b)) ∧
        ((s2.set t (Val.obj b)).set t old2).value t
          = some (Except.ok (Val.obj a), (s2.set t (Val.obj b)).set t old2)) ∧
    (nestScopes t vs s).map (fun s3 => s3.effVal t) = some (s.effVal t) := by
  constructor
  · intro old s1 _
    refine ⟨value_of_slot _ _ _ (set_locals_self s1 t (Val.obj a)), ?_⟩
    intro old2 s2 hg2
    rw [getValue_of_slot _ _ _ (set_locals_self s1 t (Val.obj a))] at hg2
    cases hg2
    exact ⟨rfl, value_of_slot _ _ _ (set_locals_self _ t (Val.obj b)),
      value_of_slot _ _ _ (set_locals_self _ t (Val.obj a))⟩
  · exact nestScopes_effVal t vs s h

/-- Witness for C2: a depth-2 nest over a fresh unbound variable unwinds back
to the unbound pre-chain state. -/
theorem c2_bind_restore_law_witness :
    (nestScopes 0 [Val.obj (3 : Nat), Val.unbound]
        (dynamicallyBound 0 Val.unbound)).map (fun s3 => s3.effVal 0)
      = some ((dynamicallyBound 0 Val.unbound).effVal 0) :=
  (c2_bind_restore_law 0 1 2 [Val.obj (3 : Nat), Val.unbound]
    (dynamicallyBound 0 Val.unbound) (by decide)).2

/-- C3: `_value` resolution is a one-time snapshot.  If the calling thread's
slot exists, its content is returned and the state is unchanged; if not, the
current `_root_value` is copied into a newly created slot for that thread and
returned; and once the slot exists, neither a later change of `_root_value`
nor a later write by another thread affects what this thread reads. -/
theorem c3_resolution_snapshot (t : Nat) (s : DVState α) :
    (∀ v, s.locals t = some v → s.getValue t = some (v, s)) ∧
    (∀ rv, s.locals t = none → s.rootVal = some rv →
      s.getValue t = some (rv, { s with locals := upd s.locals t (some rv) })) ∧
    (∀ v r, s.locals t = some v →
      DVState.getValue { s with rootVal := r } t
        = some (v, { s with rootVal := r })) ∧
    (∀ v x w, s.locals t = some v → x ≠ t →
      ((s.set x w).getValue t).map Prod.fst = some v) := by
  refine ⟨fun v hv => getValue_of_slot s t v hv, ?_, ?_, ?_⟩
  · intro rv hl hr
    simp [DVState.getValue, hl, hr]
  · intro v r hv
    exact getValue_of_slot _ t v hv
  · intro v x w hv hx
    have hslot : (s.set x w).locals t = some v := by
      rw [set_locals_ne s x t w (Ne.symm hx)]; exact hv
    simp [getValue_of_slot _ t v hslot]

/-- Witness for C3 at a concrete variable: slot-present read, slot-absent
inheritance, and independence of an existing slot from later `_root_value`
changes and other threads' writes. -/
theorem c3_resolution_snapshot_witness :
    (dynamicallyBound 0 (Val.obj (5 : Nat))).getValue 0
      = some (Val.obj 5, dynamicallyBound 0 (Val.obj 5)) ∧
    (dynamicallyBound 0 (Val.obj (5 : Nat))).getValue 1
      = some (Val.obj 5,
        { dynamicallyBound 0 (Val.obj (5 : Nat)) with
            locals := upd (dynamicallyBound 0 (Val.obj (5 : Nat))).locals 1
              (some (Val.obj 5)) }) ∧
    DVState.getValue
        { dynamicallyBound 0 (Val.obj (5 : Nat)) with rootVal := some (Val.obj 7) } 0
      = some (Val.obj 5,
        { dynamicallyBound 0 (Val.obj (5 : Nat)) with rootVal := some (Val.obj 7) }) ∧
    (((dynamicallyBound 0 (Val.obj (5 : Nat))).set 1 (Val.obj 9)).getValue 0).map
        Prod.fst = some (Val.obj 5) :=
  ⟨(c3_resolution_snapshot 0 (dynamicallyBound 0 (Val.obj (5 : Nat)))).1 _ rfl,
   (c3_resolution_snapshot 1 (dynamicallyBound 0 (Val.obj (5 : Nat)))).2.1 _ rfl rfl,
   (c3_resolution_snapshot 0 (dynamicallyBound 0 (Val.obj (5 : Nat)))).2.2.1 _ _ rfl,
   (c3_resolution_snapshot 0 (dynamicallyBound 0 (Val.obj (5 : Nat)))).2.2.2 _ 1 _ rfl
     (by decide)⟩

/-- C5: on a variable created with no initial value, after one `binding(v)`
scope on a thread is entered and exited normally, reading `value` on that
thread raises `UninitializedBinding` again: the thread's terminal effective
state after unwinding is `UNBOUND`. -/
theorem c5_post_scope_unbound (t0 t : Nat) (v : Val α) :
    ((bindingRun t v (fun s => (s, true)) (dynamicallyBound t0 Val.unbound)).bind
        (fun p => (p.1.value t).map Prod.fst)) = some (Except.error ()) ∧
    ((bindingRun t v (fun s => (s, true)) (dynamicallyBound t0 Val.unbound)).bind
        (fun p => p.1.effVal t)) = some Val.unbound := by
  obtain ⟨s1, hg⟩ := getValue_fresh t0 t (Val.unbound : Val α)
  have hslot : ((s1.set t v).set t Val.unbound).locals t = some Val.unbound :=
    set_locals_self _ _ _
  constructor
  · simp [bindingRun, hg, value_unbound_of_slot _ _ hslot]
  · simp [bindingRun, hg, DVState.effVal, getValue_of_slot _ _ _ hslot]

/-- C7: `is_bound()` performs the same local-or-inherited resolution as a
read — it reports whether that resolution's value is the sentinel and leaves
the same state — and whenever `_root_value` exists (which the root-coherence
invariant guarantees for every reachable state) the resolution yields a
value, so `is_bound()` returns a boolean and never raises. -/
theorem c7_is_bound_total (s : DVState α) (t : Nat)
    (h : s.rootVal.isSome = true) :
    ((s.isBound t).map Prod.fst) = (s.effVal t).map (fun v => !v.isUnbound) ∧
    ((s.isBound t).map Prod.snd) = (s.getValue t).map Prod.snd ∧
    (s.effVal t).isSome = true := by
  have hg := getValue_isSome s t h
  cases hgv : s.getValue t with
  | none => rw [hgv] at hg; cases hg
  | some p =>
    refine ⟨?_, ?_, ?_⟩ <;> simp [DVState.isBound, DVState.effVal, hgv]

/-- Witness for C7: on a fresh unbound variable, resolution from another
thread succeeds (so `is_bound()` has a boolean to report). -/
theorem c7_is_bound_total_witness :
    ((dynamicallyBound 0 (Val.unbound : Val Nat)).effVal 1).isSome = true :=
  (c7_is_bound_total (dynamicallyBound 0 (Val.unbound : Val Nat)) 1
    (by decide)).2.2

/-- C8 counterexample: the claim says that for every user-supplied value `v`,
after `binding(v)` the variable is bound — no user value can make it appear
unbound.  But the sentinel is the importable class `UninitializedBinding`
itself: supplying it as the bound value makes `is_bound()` return `false`
inside the scope.  Concretely, on a variable bound to `0`, scope entry for
`binding(UninitializedBinding)` captures the old value without changing the
state (first conjunct) and then stores the sentinel, after which `is_bound()`
is `false` (second conjunct). -/
theorem c8_counterexample :
    ((dynamicallyBound 0 (Val.obj (0 : Nat))).getValue 0).map Prod.snd
      = some (dynamicallyBound 0 (Val.obj 0)) ∧
    (((dynamicallyBound 0 (Val.obj (0 : Nat))).set 0 Val.unbound).isBound 0).map
        Prod.fst = some false :=
  ⟨rfl, by decide⟩

/-- C8 amended: for every user-supplied value other than the sentinel class
`UninitializedBinding` itself, after `binding(v)` on a thread, `is_bound()`
on that thread returns `true` and reading returns `v` without raising. -/
theorem c8_amended (t : Nat) (a : α) (s : DVState α) :
    ∀ old s1, s.getValue t = some (old, s1) →
      ((s1.set t (Val.obj a)).isBound t).map Prod.fst = some true ∧
      (s1.set t (Val.obj a)).value t
        = some (Except.ok (Val.obj a), s1.set t (Val.obj a)) := by
  intro old s1 _
  constructor
  · simp [DVState.isBound,
      getValue_of_slot _ _ _ (set_locals_self s1 t (Val.obj a)), Val.isUnbound]
  · exact value_of_slot _ _ _ (set_locals_self s1 t (Val.obj a))

/-- Witness for the amended C8 on a concrete variable and value. -/
theorem c8_amended_witness :
    (((dynamicallyBound 0 (Val.unbound : Val Nat)).set 0 (Val.obj 5)).isBound 0).map
        Prod.fst = some true ∧
    ((dynamicallyBound 0 (Val.unbound : Val Nat)).set 0 (Val.obj 5)).value 0
      = some (Except.ok (Val.obj 5),
          (dynamicallyBound 0 (Val.unbound : Val Nat)).set 0 (Val.obj 5)) :=
  c8_amended 0 5 (dynamicallyBound 0 Val.unbound) Val.unbound
    (dynamicallyBound 0 Val.unbound) rfl

/-- C9 counterexample: the claim says the named form is used whenever a name
was supplied at construction.  But `self._name = name or id(self)` treats a
falsy supplied name — the empty string — as absent, so a variable constructed
with `name=""` formats in the unnamed form, not the claimed named form. -/
theorem c9_counterexample :
    reprOf showNat (some "") 42 0 (dynamicallyBound 0 (Val.obj 5))
      = some "<DynamicVar (42) = 5>" ∧
    "<DynamicVar (42) = 5>" ≠ "<DynamicVar \"\" (42) = 5>" :=
  ⟨rfl, by decide⟩

/-- C9 amended: the textual representation is the named form
`<TypeName "name" (identity) = value>` when a non-empty (truthy) name was
supplied at construction, and the unnamed form `<TypeName (identity) = value>`
otherwise — an absent name falls back to the variable's identity — where the
displayed value is the calling thread's effective value. -/
theorem c9_amended (nm : String) (i t : Nat) (s : DVState α)
    (f : Val α → String) (v : Val α) (s1 : DVState α)
    (hnm : nm ≠ "") (hv : s.getValue t = some (v, s1)) :
    reprOf f (some nm) i t s
      = some (reprForm "DynamicVar" (Sum.inl nm) i (f v)) ∧
    reprOf f none i t s
      = some (reprForm "DynamicVar" (Sum.inr i) i (f v)) := by
  constructor
  · simp [reprOf, hv, mkName, hnm]
  · simp [reprOf, hv, mkName]

/-- Witness for the amended C9 on a concrete named and unnamed variable. -/
theorem c9_amended_witness :
    reprOf showNat (some "var") 42 0 (dynamicallyBound 0 (Val.obj (5 : Nat)))
      = some (reprForm "DynamicVar" (Sum.inl "var") 42 (showNat (Val.obj 5))) ∧
    reprOf showNat none 42 0 (dynamicallyBound 0 (Val.obj (5 : Nat)))
      = some (reprForm "DynamicVar" (Sum.inr 42) 42 (showNat (Val.obj 5))) :=
  c9_amended "var" 42 0 (dynamicallyBound 0 (Val.obj 5)) showNat (Val.obj 5)
    (dynamicallyBound 0 (Val.obj 5)) (by decide) rfl

/-- C10: root-thread coherence.  In every reachable state — after
construction and after every `_set` or slot-creating resolution, on any
thread — `_root_value` exists and equals the root thread's local slot;
consequently resolution never fails to find an inheritance source, for any
calling thread. -/
theorem c10_root_coherence (s : DVState α) (h : Reachable s) :
    (s.rootVal.isSome = true ∧ s.locals s.root = s.rootVal) ∧
    (∀ t, (s.getValue t).isSome = true) := by
  have inv : s.rootVal.isSome = true ∧ s.locals s.root = s.rootVal := by
    induction h with
    | init t0 initial =>
      constructor
      · simp [dynamicallyBound, DVState.set]
      · simp [dynamicallyBound, DVState.set, upd]
    | step_set t v s hs ih =>
      constructor
      · by_cases ht : t = s.root <;> simp [DVState.set, ht, ih.1]
      · rw [set_root]
        by_cases ht : t = s.root
        · subst ht
          simp [DVState.set, upd_same]
        · rw [set_locals_ne s t s.root v (fun hh => ht hh.symm)]
          simp [DVState.set, ht, ih.2]
    | step_get t s v s' hs hg ih =>
      unfold DVState.getValue at hg
      cases hl : s.locals t with
      | some w =>
        rw [hl] at hg
        cases hg
        exact ih
      | none =>
        rw [hl] at hg
        cases hr : s.rootVal with
        | none => rw [hr] at hg; cases hg
        | some rv =>
          rw [hr] at hg
          injection hg with hg'
          injection hg' with h1 h2
          subst h2
          have htr : t ≠ s.root := by
            intro hh
            rw [hh, ih.2, hr] at hl
            cases hl
          constructor
          · rfl
          · show upd s.locals t (some rv) s.root = some rv
            rw [upd_ne _ _ _ _ (fun hh => htr hh.symm), ih.2, hr]
  exact ⟨inv, fun t => getValue_isSome s t inv.1⟩

/-- Witness for C10 on a concrete freshly constructed variable. -/
theorem c10_root_coherence_witness :
    ((dynamicallyBound 1 (Val.obj (5 : Nat))).rootVal.isSome = true ∧
      (dynamicallyBound 1 (Val.obj (5 : Nat))).locals
          (dynamicallyBound 1 (Val.obj (5 : Nat))).root
        = (dynamicallyBound 1 (Val.obj (5 : Nat))).rootVal) ∧
    ((dynamicallyBound 1 (Val.obj (5 : Nat))).getValue 0).isSome = true :=
  ⟨(c10_root_coherence _ (Reachable.init 1 (Val.obj 5))).1,
   (c10_root_coherence _ (Reachable.init 1 (Val.obj 5))).2 0⟩

end DynScoping
